import Mathlib

/-!
Shallow embedding of the trace-to-logs / trace-to-metrics span-link engine
(`createSpanLinkFactory` and its helpers) and of the alert state-history SQL
stub backend (`SqlBackend`).  TypeScript/Go values are modelled as follows:
JavaScript numbers holding microsecond/millisecond epoch offsets are `Int`,
optional values are `Option`, JS string-falsiness is an explicit test against
`""`, and thrown exceptions are `Except`.
-/

namespace GrafanaSpec

/-- A span or process tag (`TraceKeyValuePair`): a key/value pair of strings. -/
structure TraceKeyValuePair where
  key : String
  value : String
deriving DecidableEq, Repr

/-- A tag-mapping entry (`KeyValue<string>` in the settings): a tag key plus an
optional rename target; `value` being `none` or `""` both behave as "no rename"
because the source tests it with JS truthiness. -/
structure KeyValue where
  key : String
  value : Option String
deriving DecidableEq, Repr

/-- The process owning a span, carrying its own tags. -/
structure TraceProcess where
  tags : List TraceKeyValuePair
deriving DecidableEq, Repr

/-- The resolvable target span of a reference (only its operation name is
consumed, for the link title). -/
structure ReferencedSpanInfo where
  operationName : String
deriving DecidableEq, Repr

/-- A typed reference from one span to another (`SpanReference`). -/
structure SpanReference where
  refType : String
  traceID : String
  spanID : String
  span : Option ReferencedSpanInfo
deriving DecidableEq, Repr

/-- A trace span (`TraceSpan`): ids, operation name, start time and duration in
microseconds, its own tags, its process, its references and the subsidiary
back-references.  `dataFrameRowIndex` is the row the span occupies in the
backing data frame (used only by the structured mode). -/
structure TraceSpan where
  traceID : String
  spanID : String
  operationName : String
  startTime : Int
  duration : Int
  tags : List TraceKeyValuePair
  process : TraceProcess
  references : List SpanReference
  subsidiarilyReferencedBy : List SpanReference
  dataFrameRowIndex : Nat
deriving DecidableEq, Repr

/-- The trace-to-logs options (`TraceToLogsOptionsV2`).  The optional boolean
filter flags of the source are modelled as `Bool` (JS reads `undefined` as
false); `tags = none` models an absent (`undefined`) mapping list, which is
distinct from a present-but-empty list `some []` under the `||` defaulting of
the source. -/
structure TraceToLogsOptionsV2 where
  datasourceUid : Option String
  tags : Option (List KeyValue)
  spanStartTimeShift : Option String
  spanEndTimeShift : Option String
  filterByTraceID : Bool
  filterBySpanID : Bool
  query : Option String
  customQuery : Bool
deriving DecidableEq, Repr

/-- One trace-to-metrics query definition (`TraceToMetricQuery`). -/
structure TraceToMetricQuery where
  name : Option String
  query : Option String
deriving DecidableEq, Repr

/-- The millisecond time shifts applied to a span's natural window: the pair
`{ startMs, endMs }` passed to `getTimeRangeFromSpan` (already converted from
interval strings by `rangeUtil.intervalToMs`, hence integers, possibly
negative). -/
structure TimeShift where
  startMs : Int
  endMs : Int
deriving DecidableEq, Repr

/-- The derived query time range.  The source returns `{ from, to, raw }` where
`raw` repeats the same two instants, so the model keeps one copy of each. -/
structure TimeRange where
  fromMs : Int
  toMs : Int
deriving DecidableEq, Repr

/-- Default keys to use when there are no configured tags:
`['cluster', 'hostname', 'namespace', 'pod'].map((k) => ({ key: k }))`. -/
def defaultKeys : List KeyValue :=
  ["cluster", "hostname", "namespace", "pod"].map (fun k => { key := k, value := none })

/-- The JS idiom `keyValue.value ? keyValue.value : keyValue.key`: the rename
target of a mapping entry, falling back to the original key when the target is
absent or empty (both falsy). -/
def mappedLabel (keyValue : KeyValue) : String :=
  match keyValue.value with
  | some v => if v = "" then keyValue.key else v
  | none => keyValue.key

/-- Embeds `getTags`: resolve the combined tag list (process tags then span tags)
against a mapping list, producing fragments `label<sign>"value"`; tags with no
mapping entry are dropped (`.map(...).filter(Boolean)` is `filterMap`). -/
def getTags (span : TraceSpan) (tags : List KeyValue) (labelValueSign : String) :
    List String :=
  (span.process.tags ++ span.tags).filterMap (fun tag =>
    match tags.find? (fun keyValue => keyValue.key = tag.key) with
    | some keyValue =>
        some (mappedLabel keyValue ++ labelValueSign ++ "\"" ++ tag.value ++ "\"")
    | none => none)

/-- A Loki query (`LokiQuery`): the fields the builder fills. -/
structure LokiQuery where
  expr : String
  refId : String
deriving DecidableEq, Repr

/-- The metrics entry of an Elasticsearch/OpenSearch logs query. -/
structure EsMetric where
  id : String
  type : String
deriving DecidableEq, Repr

/-- An Elasticsearch/OpenSearch query (`ElasticsearchOrOpensearchQuery`). -/
structure ElasticsearchOrOpensearchQuery where
  query : String
  refId : String
  metrics : List EsMetric
deriving DecidableEq, Repr

/-- A Splunk query: the fields the builder fills. -/
structure SplunkQuery where
  query : String
  refId : String
deriving DecidableEq, Repr

/-- Result of a log-query builder: the backend query plus the joined tag
string kept for `$__tags` substitution. -/
structure LokiQueryData where
  query : LokiQuery
  tags : String
deriving DecidableEq, Repr

/-- Result of the Elasticsearch/OpenSearch builder. -/
structure EsQueryData where
  query : ElasticsearchOrOpensearchQuery
  tags : String
deriving DecidableEq, Repr

/-- Result of the Splunk builder. -/
structure SplunkQueryData where
  query : SplunkQuery
  tags : String
deriving DecidableEq, Repr

/-- Embeds `getQueryForLoki`: tags resolved against `options.tags || defaultKeys`
(default sign `=`), joined with `', '`; empty tag string short-circuits to an
empty query; otherwise the base clause is the placeholder `{$__tags}` and the
trace/span-ID pipe filters are appended when the flag is set and the id is
non-empty (JS truthiness of the id string). -/
def getQueryForLoki (span : TraceSpan) (options : TraceToLogsOptionsV2) :
    LokiQueryData :=
  let tags := String.intercalate ", " (getTags span (options.tags.getD defaultKeys) "=")
  if tags = "" then
    { query := { expr := "", refId := "" }, tags := tags }
  else
    let expr := "\x7b$__tags\x7d"
    let expr :=
      if options.filterByTraceID = true ∧ span.traceID ≠ "" then
        expr ++ " |=\"$__span.traceId\""
      else expr
    let expr :=
      if options.filterBySpanID = true ∧ span.spanID ≠ "" then
        expr ++ " |=\"$__span.id\""
      else expr
    { query := { expr := expr, refId := "" }, tags := tags }

/-- Embeds `getQueryForElasticsearchOrOpensearch`: tags resolved against
`options.tags || []` with sign `:`, joined with `' AND '`; the `$__tags`
placeholder appears only when the tag string is non-empty, and the ID filters
are PREPENDED (`query = '"..." AND ' + query`), trace ID first then span ID,
each when its flag is set and the id is non-empty. -/
def getQueryForElasticsearchOrOpensearch (span : TraceSpan)
    (options : TraceToLogsOptionsV2) : EsQueryData :=
  let tags := String.intercalate " AND " (getTags span (options.tags.getD []) ":")
  let query := if tags.length > 0 then "$__tags" else ""
  let query :=
    if options.filterByTraceID = true ∧ span.traceID ≠ "" then
      "\"$__span.traceId\" AND " ++ query
    else query
  let query :=
    if options.filterBySpanID = true ∧ span.spanID ≠ "" then
      "\"$__span.id\" AND " ++ query
    else query
  { query := { query := query, refId := "", metrics := [{ id := "1", type := "logs" }] },
    tags := tags }

/-- Embeds `getQueryForSplunk`: tags resolved against `options.tags || defaultKeys`
(default sign `=`), joined with `' '`; the `$__tags` placeholder appears only
when the tag string is non-empty, and the ID filters are APPENDED as
space-prefixed quoted tokens, trace ID then span ID, each when its flag is set
and the id is non-empty. -/
def getQueryForSplunk (span : TraceSpan) (options : TraceToLogsOptionsV2) :
    SplunkQueryData :=
  let tags := String.intercalate " " (getTags span (options.tags.getD defaultKeys) "=")
  let query := if tags ≠ "" then "$__tags" else ""
  let query :=
    if options.filterByTraceID = true ∧ span.traceID ≠ "" then
      query ++ " \"$__span.traceId\""
    else query
  let query :=
    if options.filterBySpanID = true ∧ span.spanID ≠ "" then
      query ++ " \"$__span.id\""
    else query
  { query := { query := query, refId := "" }, tags := tags }

/-- Embeds `Math.floor(span.startTime / 1000 + timeShift.startMs)`.  For an integer
millisecond shift the floor commutes with the addition, so the exact value is
the floor division of the microsecond start time by 1000 plus the shift
(`Int.fdiv` floors toward negative infinity exactly as `Math.floor`). -/
def adjustedStartTime (span : TraceSpan) (timeShift : TimeShift) : Int :=
  (span.startTime).fdiv 1000 + timeShift.startMs

/-- Embeds `Math.floor(spanEndMs + timeShift.endMs)` where
`spanEndMs = (span.startTime + span.duration) / 1000`: the end instant before
the widening adjustments. -/
def adjustedEndTimeNaive (span : TraceSpan) (timeShift : TimeShift) : Int :=
  (span.startTime + span.duration).fdiv 1000 + timeShift.endMs

/-- Embeds `getTimeRangeFromSpan`: derives the query window from the span.  The
Splunk dialect needs an interval of at least 1000 ms, so a smaller width forces
`end = start + 1000`; otherwise, only when start and end are exactly equal, the
end is incremented by one millisecond. -/
def getTimeRangeFromSpan (span : TraceSpan) (timeShift : TimeShift)
    (isSplunkDS : Bool) : TimeRange :=
  let s := adjustedStartTime span timeShift
  let e := adjustedEndTimeNaive span timeShift
  if isSplunkDS = true ∧ e - s < 1000 then
    { fromMs := s, toMs := s + 1000 }
  else if s = e then
    { fromMs := s, toMs := e + 1 }
  else
    { fromMs := s, toMs := e }

/-- Embeds `buildMetricsQuery`: interpolates span attributes into a trace-to-metrics
query template, or returns the default histogram query when no (non-empty)
template is supplied.  The `$__tags` marker is replaced (globally) by the
comma-joined `label="value"` pairs built from the configured tags that have a
non-empty value on the span; when the configured tag list is empty or the
template has no marker, the template is returned unchanged. -/
def buildMetricsQuery (query : TraceToMetricQuery) (tags : List KeyValue)
    (span : TraceSpan) : String :=
  match query.query with
  | none =>
      "histogram_quantile(0.5, sum(rate(tempo_spanmetrics_latency_bucket\x7boperation=\""
        ++ span.operationName ++ "\"\x7d[5m])) by (le))"
  | some expr =>
      if expr = "" then
        "histogram_quantile(0.5, sum(rate(tempo_spanmetrics_latency_bucket\x7boperation=\""
          ++ span.operationName ++ "\"\x7d[5m])) by (le))"
      else if tags.length ≠ 0 ∧ ("$__tags".toList <:+: expr.toList) then
        let spanTags := span.process.tags ++ span.tags
        let labels := tags.foldl (fun acc tag =>
          match spanTags.find? (fun t => t.key = tag.key) with
          | some t =>
              if t.value ≠ "" then acc ++ [mappedLabel tag ++ "=\"" ++ t.value ++ "\""]
              else acc
          | none => acc) []
        let labelsQuery := String.intercalate ", " labels
        String.replace expr "$__tags" labelsQuery
      else expr

/-- A link produced by the generic explore-field link resolution (only its
`href` is consumed by the factory). -/
structure ExploreLinkModel where
  href : String
deriving DecidableEq, Repr

/-- One assembled span link: `href`, optional `title` (the log links carry
none) and the icon name of the `content` element. -/
structure SpanLinkDef where
  href : String
  title : Option String
  content : String
deriving DecidableEq, Repr

/-- The per-span link buckets (`SpanLinks`). -/
structure SpanLinks where
  logLinks : Option (List SpanLinkDef)
  metricLinks : Option (List SpanLinkDef)
  traceLinks : Option (List SpanLinkDef)
deriving DecidableEq, Repr

/-- The structured-mode `SpanLink` function: field-link resolution (an
external collaborator that may throw, modelled as `Except`) is invoked with the
span's row index and derived time range; the whole body sits in a `try/catch`
that logs and returns `undefined` on any thrown error — including the
`TypeError` raised by `links[0].href` when the resolver returns no links. -/
def structuredSpanLink
    (getFieldLinksForExplore : Nat → TimeRange → Except String (List ExploreLinkModel))
    (span : TraceSpan) : Option SpanLinks :=
  match getFieldLinksForExplore span.dataFrameRowIndex
      (getTimeRangeFromSpan span { startMs := 0, endMs := 0 } false) with
  | Except.error _ => none
  | Except.ok links =>
      match links with
      | [] => none
      | l :: _ =>
          some { logLinks := some [{ href := l.href, title := none, content := "gf-logs" }],
                 metricLinks := none, traceLinks := none }

/-- One trace link pushed for a span reference: href from
`createFocusSpanLink(reference.traceID, reference.spanID)`, titled with the
referenced span's operation name when resolvable, else the generic title. -/
def mkTraceLink (createFocusSpanLink : String → String → ExploreLinkModel)
    (reference : SpanReference) : SpanLinkDef :=
  { href := (createFocusSpanLink reference.traceID reference.spanID).href,
    title := some (match reference.span with
      | some s => s.operationName
      | none => "View linked span"),
    content := "link" }

/-- The first trace-link loop of the legacy `SpanLink`: iterate
`span.references`, `continue` on `refType === 'CHILD_OF'`, push one link per
remaining reference onto the accumulated list. -/
def pushTraceLinksFromReferences (createFocusSpanLink : String → String → ExploreLinkModel)
    (references : List SpanReference) (links : List SpanLinkDef) : List SpanLinkDef :=
  references.foldl (fun acc reference =>
    if reference.refType = "CHILD_OF" then acc
    else acc ++ [mkTraceLink createFocusSpanLink reference]) links

/-- The second trace-link loop of the legacy `SpanLink`: iterate
`span.subsidiarilyReferencedBy` and push one link per entry, with no reference
type test. -/
def pushTraceLinksFromSubsidiaryRefs
    (createFocusSpanLink : String → String → ExploreLinkModel)
    (references : List SpanReference) (links : List SpanLinkDef) : List SpanLinkDef :=
  references.foldl (fun acc reference =>
    acc ++ [mkTraceLink createFocusSpanLink reference]) links

/-- The trace-link bucket assembled by the legacy `SpanLink` for a span when a
`createFocusSpanLink` collaborator is supplied: the forward-reference loop runs
first, then the subsidiary back-reference loop extends the same list. -/
def legacyTraceLinks (createFocusSpanLink : String → String → ExploreLinkModel)
    (span : TraceSpan) : List SpanLinkDef :=
  pushTraceLinksFromSubsidiaryRefs createFocusSpanLink span.subsidiarilyReferencedBy
    (pushTraceLinksFromReferences createFocusSpanLink span.references [])

/-- An alert rule (opaque at this layer: the stub ignores it). -/
structure AlertRule where
  uid : String
deriving DecidableEq, Repr

/-- A recorded alert state transition (opaque at this layer: the stub ignores
them). -/
structure StateTransition where
  previousState : String
  state : String
deriving DecidableEq, Repr

/-- The filter of a state-history query (`models.HistoryQuery`): rule scope,
time range and label matchers; the stub ignores it entirely. -/
structure HistoryQuery where
  ruleUID : String
  fromEpoch : Int
  toEpoch : Int
  labels : List (String × String)
deriving DecidableEq, Repr

/-- A field of a tabular data frame (`data.Field`): a name and a column of
values. -/
structure DataField where
  name : String
  values : List String
deriving DecidableEq, Repr

/-- A tabular data frame (`data.Frame`): a name and its fields. -/
structure Frame where
  name : String
  fields : List DataField
deriving DecidableEq, Repr

/-- Embeds `data.NewFrame(name)`: a frame with the given name and no fields. -/
def newFrame (name : String) : Frame :=
  { name := name, fields := [] }

/-- Embeds `Frame.Rows()`: the length of the first field's column, 0 when the frame
has no fields. -/
def frameRows (f : Frame) : Nat :=
  match f.fields with
  | [] => 0
  | fld :: _ => fld.values.length

/-- Embeds `SqlBackend.RecordStatesAsync`: an empty body — every argument is
discarded and nothing is returned. -/
def recordStatesAsync (_rule : Option AlertRule) (_states : List StateTransition) :
    Unit := ()

/-- Embeds `SqlBackend.QueryStates`: returns `(data.NewFrame("states"), nil)` for
every query; the Go pair `(*data.Frame, error)` is modelled with `Option` for
each nilable component. -/
def queryStates (_query : HistoryQuery) : Option Frame × Option String :=
  (some (newFrame "states"), none)

/-- A concrete sample span used to evaluate the builders: non-empty ids, a
zero-width window starting at the epoch, and one process tag with the default
key `cluster`. -/
def sampleSpan : TraceSpan :=
  { traceID := "t1", spanID := "s1", operationName := "op",
    startTime := 0, duration := 0, tags := [],
    process := { tags := [{ key := "cluster", value := "us1" }] },
    references := [], subsidiarilyReferencedBy := [], dataFrameRowIndex := 0 }

/-- A concrete sample span whose trace and span ids are both empty. -/
def sampleSpanNoIds : TraceSpan :=
  { sampleSpan with traceID := "", spanID := "" }

/-- Concrete trace-to-logs options with an absent (`undefined`) tag-mapping
list and both ID filters enabled. -/
def sampleLogOptions : TraceToLogsOptionsV2 :=
  { datasourceUid := none, tags := none, spanStartTimeShift := none,
    spanEndTimeShift := none, filterByTraceID := true, filterBySpanID := true,
    query := none, customQuery := false }

/-- Concrete trace-to-logs options with a present-but-empty tag-mapping list
and both ID filters enabled. -/
def sampleLogOptionsEmptyTags : TraceToLogsOptionsV2 :=
  { sampleLogOptions with tags := some [] }

/-- C1 counterexample: with the minimum-width flag off and an end shift of
-5000 ms on a zero-width span, the naive width is negative, the deriver leaves
the window unwidened, and the returned end (-5000) strictly precedes the
returned start (0) — refuting the claim that the returned range always has
`end > start`. -/
theorem C1_counterexample :
    getTimeRangeFromSpan sampleSpan { startMs := 0, endMs := -5000 } false =
      { fromMs := 0, toMs := -5000 } ∧
    (getTimeRangeFromSpan sampleSpan { startMs := 0, endMs := -5000 } false).toMs <
      (getTimeRangeFromSpan sampleSpan { startMs := 0, endMs := -5000 } false).fromMs := by
  decide

/-- C1 (amended): the derived range's end is strictly later than its start
whenever the minimum-width flag is set, or the naively computed end does not
precede the naively computed start; when the flag is off and the naive width is
negative the window is returned unwidened, with end before start. -/
theorem C1_end_strictly_after_start (span : TraceSpan) (timeShift : TimeShift)
    (isSplunkDS : Bool)
    (h : isSplunkDS = true ∨ adjustedStartTime span timeShift ≤ adjustedEndTimeNaive span timeShift) :
    (getTimeRangeFromSpan span timeShift isSplunkDS).fromMs <
      (getTimeRangeFromSpan span timeShift isSplunkDS).toMs := by
  unfold getTimeRangeFromSpan
  by_cases h1 : isSplunkDS = true ∧
      adjustedEndTimeNaive span timeShift - adjustedStartTime span timeShift < 1000
  · rw [if_pos h1]
    simp only
    omega
  · rw [if_neg h1]
    by_cases h2 : adjustedStartTime span timeShift = adjustedEndTimeNaive span timeShift
    · rw [if_pos h2]
      simp only
      omega
    · rw [if_neg h2]
      simp only
      rcases h with hs | hle
      · have : ¬ adjustedEndTimeNaive span timeShift - adjustedStartTime span timeShift < 1000 := by
          intro hlt
          exact h1 ⟨hs, hlt⟩
        omega
      · omega

/-- C1 witness: the amended theorem applied to the sample span with zero
shifts in Splunk mode. -/
theorem C1_witness :
    ((true : Bool) = true ∨
      adjustedStartTime sampleSpan { startMs := 0, endMs := 0 } ≤
        adjustedEndTimeNaive sampleSpan { startMs := 0, endMs := 0 }) ∧
    (getTimeRangeFromSpan sampleSpan { startMs := 0, endMs := 0 } true).fromMs <
      (getTimeRangeFromSpan sampleSpan { startMs := 0, endMs := 0 } true).toMs :=
  ⟨Or.inl rfl,
    C1_end_strictly_after_start sampleSpan { startMs := 0, endMs := 0 } true (Or.inl rfl)⟩

/-- C4: for every span whose start equals its end after millisecond truncation
(zero time shifts), the derived end is exactly start + 1 ms with the
minimum-width flag off, and exactly start + 1000 ms with the flag on. -/
theorem C4_zero_width_widening (span : TraceSpan)
    (h : adjustedStartTime span { startMs := 0, endMs := 0 } =
      adjustedEndTimeNaive span { startMs := 0, endMs := 0 }) :
    getTimeRangeFromSpan span { startMs := 0, endMs := 0 } false =
      { fromMs := adjustedStartTime span { startMs := 0, endMs := 0 },
        toMs := adjustedStartTime span { startMs := 0, endMs := 0 } + 1 } ∧
    getTimeRangeFromSpan span { startMs := 0, endMs := 0 } true =
      { fromMs := adjustedStartTime span { startMs := 0, endMs := 0 },
        toMs := adjustedStartTime span { startMs := 0, endMs := 0 } + 1000 } := by
  constructor
  · unfold getTimeRangeFromSpan
    rw [if_neg (by simp), if_pos h, ← h]
  · unfold getTimeRangeFromSpan
    rw [if_pos ⟨rfl, by omega⟩]

/-- C4 witness: the sample span starts at the epoch with zero duration, so its
truncated start and end coincide and the theorem applies. -/
theorem C4_witness :
    adjustedStartTime sampleSpan { startMs := 0, endMs := 0 } =
      adjustedEndTimeNaive sampleSpan { startMs := 0, endMs := 0 } ∧
    getTimeRangeFromSpan sampleSpan { startMs := 0, endMs := 0 } false =
      { fromMs := adjustedStartTime sampleSpan { startMs := 0, endMs := 0 },
        toMs := adjustedStartTime sampleSpan { startMs := 0, endMs := 0 } + 1 } ∧
    getTimeRangeFromSpan sampleSpan { startMs := 0, endMs := 0 } true =
      { fromMs := adjustedStartTime sampleSpan { startMs := 0, endMs := 0 },
        toMs := adjustedStartTime sampleSpan { startMs := 0, endMs := 0 } + 1000 } :=
  ⟨by decide, C4_zero_width_widening sampleSpan (by decide)⟩

/-- C2 counterexample: the Elasticsearch/OpenSearch builder, resolving a span
with a `cluster` process tag against an absent mapping list, yields an empty
tag string even though the default-mapping resolution is non-empty; and the
Loki builder, given a present-but-empty mapping list, also yields an empty tag
string — refuting the claim that every log-query builder substitutes the
four-element default mapping for an empty mapping set. -/
theorem C2_counterexample :
    (getQueryForElasticsearchOrOpensearch sampleSpan sampleLogOptions).tags = "" ∧
    getTags sampleSpan defaultKeys ":" = ["cluster:\"us1\""] ∧
    (getQueryForLoki sampleSpan sampleLogOptionsEmptyTags).tags = "" ∧
    getTags sampleSpan defaultKeys "=" = ["cluster=\"us1\""] := by
  decide

/-- C2 (amended): only the Loki and Splunk builders substitute the fixed
four-element default mapping, and only when the mapping list is absent
(`undefined`); a present-but-empty mapping list is used as-is, and the
Elasticsearch/OpenSearch builder substitutes the empty list, never the
defaults. -/
theorem C2_default_mapping_substitution (span : TraceSpan)
    (options : TraceToLogsOptionsV2) :
    getQueryForLoki span { options with tags := none } =
      getQueryForLoki span { options with tags := some defaultKeys } ∧
    getQueryForSplunk span { options with tags := none } =
      getQueryForSplunk span { options with tags := some defaultKeys } ∧
    getQueryForElasticsearchOrOpensearch span { options with tags := none } =
      getQueryForElasticsearchOrOpensearch span { options with tags := some [] } := by
  exact ⟨rfl, rfl, rfl⟩

/-- C3 counterexample: with an empty mapping list (hence an empty resolved tag
set), both ID filters on and non-empty ids, the Splunk (Dialect C) builder
produces the space-joined appended form and the Elasticsearch/OpenSearch
builder produces the AND-joined prepended form with the span-ID filter first —
neither equals the claimed string. -/
theorem C3_counterexample :
    (getQueryForSplunk sampleSpan sampleLogOptionsEmptyTags).query.query =
      " \"$__span.traceId\" \"$__span.id\"" ∧
    (getQueryForSplunk sampleSpan sampleLogOptionsEmptyTags).query.query ≠
      "\"$__span.traceId\" AND \"$__span.id\" AND " ∧
    (getQueryForElasticsearchOrOpensearch sampleSpan sampleLogOptionsEmptyTags).query.query =
      "\"$__span.id\" AND \"$__span.traceId\" AND " ∧
    (getQueryForElasticsearchOrOpensearch sampleSpan sampleLogOptionsEmptyTags).query.query ≠
      "\"$__span.traceId\" AND \"$__span.id\" AND " := by
  decide

/-- C3 (amended): given an empty resolved tag set, both ID filter flags on and
non-empty trace and span ids, the Dialect C (Splunk) builder produces exactly
the space-joined appended string, while the AND-composed
form is produced by the Elasticsearch/OpenSearch builder, which prepends and
therefore puts the span-ID filter before the trace-ID filter. -/
theorem C3_empty_tags_id_filters (span : TraceSpan) (options : TraceToLogsOptionsV2)
    (hT : options.filterByTraceID = true) (hS : options.filterBySpanID = true)
    (htr : span.traceID ≠ "") (hsp : span.spanID ≠ "")
    (hSplunkTags : getTags span (options.tags.getD defaultKeys) "=" = [])
    (hEsTags : getTags span (options.tags.getD []) ":" = []) :
    (getQueryForSplunk span options).query.query =
      " \"$__span.traceId\" \"$__span.id\"" ∧
    (getQueryForElasticsearchOrOpensearch span options).query.query =
      "\"$__span.id\" AND \"$__span.traceId\" AND " := by
  constructor
  · unfold getQueryForSplunk
    rw [hSplunkTags]
    simp [hT, hS, htr, hsp]
    decide
  · unfold getQueryForElasticsearchOrOpensearch
    rw [hEsTags]
    simp [hT, hS, htr, hsp]
    decide

/-- C3 witness: the amended theorem evaluated on the sample span with an empty
mapping list. -/
theorem C3_witness :
    (getQueryForSplunk sampleSpan sampleLogOptionsEmptyTags).query.query =
      " \"$__span.traceId\" \"$__span.id\"" ∧
    (getQueryForElasticsearchOrOpensearch sampleSpan sampleLogOptionsEmptyTags).query.query =
      "\"$__span.id\" AND \"$__span.traceId\" AND " :=
  C3_empty_tags_id_filters sampleSpan sampleLogOptionsEmptyTags rfl rfl
    (by decide) (by decide) rfl rfl

/-- C5: in structured mode, whenever field-link resolution (which performs the
template interpolation) throws, the factory catches the error at its own
boundary and returns no link (`undefined`); nothing is propagated to the
rendering caller. -/
theorem C5_structured_mode_catches (getFieldLinksForExplore :
      Nat → TimeRange → Except String (List ExploreLinkModel))
    (span : TraceSpan) (e : String)
    (h : getFieldLinksForExplore span.dataFrameRowIndex
        (getTimeRangeFromSpan span { startMs := 0, endMs := 0 } false) =
      Except.error e) :
    structuredSpanLink getFieldLinksForExplore span = none := by
  unfold structuredSpanLink
  rw [h]

/-- C5 witness: a resolver that always throws yields no link on the sample
span. -/
theorem C5_witness :
    structuredSpanLink (fun _ _ => Except.error "bad interpolation") sampleSpan = none :=
  C5_structured_mode_catches (fun _ _ => Except.error "bad interpolation")
    sampleSpan "bad interpolation" rfl

/-- Generalizes the forward-reference trace-link loop over its accumulator:
the loop appends, to the links already pushed, one link per reference whose
type is not `CHILD_OF`, in order. -/
lemma pushTraceLinksFromReferences_eq
    (createFocusSpanLink : String → String → ExploreLinkModel)
    (references : List SpanReference) (links : List SpanLinkDef) :
    pushTraceLinksFromReferences createFocusSpanLink references links =
      links ++ (references.filter (fun r => r.refType ≠ "CHILD_OF")).map
        (mkTraceLink createFocusSpanLink) := by
  induction references generalizing links with
  | nil => simp [pushTraceLinksFromReferences]
  | cons r rest ih =>
    by_cases h : r.refType = "CHILD_OF"
    · simp [pushTraceLinksFromReferences, List.foldl_cons, h] at ih ⊢
      exact ih links
    · simp [pushTraceLinksFromReferences, List.foldl_cons, h] at ih ⊢
      rw [ih]
      simp

/-- Generalizes the subsidiary back-reference trace-link loop over its
accumulator: the loop appends one link per entry, with no type test. -/
lemma pushTraceLinksFromSubsidiaryRefs_eq
    (createFocusSpanLink : String → String → ExploreLinkModel)
    (references : List SpanReference) (links : List SpanLinkDef) :
    pushTraceLinksFromSubsidiaryRefs createFocusSpanLink references links =
      links ++ references.map (mkTraceLink createFocusSpanLink) := by
  induction references generalizing links with
  | nil => simp [pushTraceLinksFromSubsidiaryRefs]
  | cons r rest ih =>
    simp [pushTraceLinksFromSubsidiaryRefs, List.foldl_cons] at ih ⊢
    rw [ih]
    simp

/-- C6: the legacy forward-reference loop produces exactly one trace link per
reference whose type is not `CHILD_OF` (in order) and no link for any
parent-child reference. -/
theorem C6_trace_links_skip_child_of
    (createFocusSpanLink : String → String → ExploreLinkModel)
    (references : List SpanReference) :
    pushTraceLinksFromReferences createFocusSpanLink references [] =
      (references.filter (fun r => r.refType ≠ "CHILD_OF")).map
        (mkTraceLink createFocusSpanLink) := by
  simpa using pushTraceLinksFromReferences_eq createFocusSpanLink references []

/-- C10: the subsidiary back-reference loop produces one trace link for every
entry regardless of its reference type — the `CHILD_OF` exclusion applies only
to the forward-reference loop. -/
theorem C10_subsidiary_links_unfiltered
    (createFocusSpanLink : String → String → ExploreLinkModel) (span : TraceSpan) :
    legacyTraceLinks createFocusSpanLink span =
      pushTraceLinksFromReferences createFocusSpanLink span.references [] ++
        span.subsidiarilyReferencedBy.map (mkTraceLink createFocusSpanLink) := by
  unfold legacyTraceLinks
  exact pushTraceLinksFromSubsidiaryRefs_eq createFocusSpanLink
    span.subsidiarilyReferencedBy _

/-- C7: the metric-query builder returns the default histogram query,
parameterized only by the span's operation name, when no template (or an empty
template, falsy in JS) is supplied; and when a non-empty template has no
`$__tags` marker or the configured tag list is empty, the template is returned
unchanged. -/
theorem C7_metrics_query_default_and_noop (query : TraceToMetricQuery)
    (tags : List KeyValue) (span : TraceSpan) :
    ((query.query = none ∨ query.query = some "") →
      buildMetricsQuery query tags span =
        "histogram_quantile(0.5, sum(rate(tempo_spanmetrics_latency_bucket\x7boperation=\""
          ++ span.operationName ++ "\"\x7d[5m])) by (le))") ∧
    (∀ expr, query.query = some expr → expr ≠ "" →
      (tags = [] ∨ ¬ ("$__tags".toList <:+: expr.toList)) →
      buildMetricsQuery query tags span = expr) := by
  constructor
  · intro h
    rcases h with h | h <;> simp [buildMetricsQuery, h]
  · intro expr hq hne hcase
    unfold buildMetricsQuery
    rw [hq]
    simp only
    rw [if_neg hne, if_neg]
    intro hcond
    rcases hcase with h | h
    · rw [h] at hcond
      simp at hcond
    · exact h hcond.2

/-- C7 witness: on the sample span, the builder with no template yields the
default histogram query for operation `op`, and a marker-free template is
returned unchanged. -/
theorem C7_witness :
    buildMetricsQuery { name := none, query := none } [] sampleSpan =
      "histogram_quantile(0.5, sum(rate(tempo_spanmetrics_latency_bucket\x7boperation=\""
        ++ sampleSpan.operationName ++ "\"\x7d[5m])) by (le))" ∧
    buildMetricsQuery { name := none, query := some "sum(rate(foo[5m]))" }
        [{ key := "cluster", value := none }] sampleSpan = "sum(rate(foo[5m]))" :=
  ⟨(C7_metrics_query_default_and_noop { name := none, query := none } [] sampleSpan).1
      (Or.inl rfl),
    (C7_metrics_query_default_and_noop { name := none, query := some "sum(rate(foo[5m]))" }
        [{ key := "cluster", value := none }] sampleSpan).2 "sum(rate(foo[5m]))" rfl
      (by decide) (Or.inr (by decide))⟩

/-- C8: the state-history SQL stub accepts any transition list, returning unit
without error, and answers every query with the non-nil empty frame named
`states` (zero rows) and a nil error. -/
theorem C8_state_history_stub (rule : Option AlertRule)
    (states : List StateTransition) (query : HistoryQuery) :
    recordStatesAsync rule states = () ∧
    (queryStates query).1 = some (newFrame "states") ∧
    frameRows (newFrame "states") = 0 ∧
    (queryStates query).2 = none :=
  ⟨rfl, rfl, rfl, rfl⟩

/-- C9: in each legacy log-query builder, a set trace-ID (resp. span-ID)
filter flag combined with an empty id contributes nothing — the produced query
is identical to the one produced with the flag cleared. -/
theorem C9_id_filters_need_nonempty_id (span : TraceSpan)
    (options : TraceToLogsOptionsV2) :
    (span.traceID = "" →
      getQueryForLoki span { options with filterByTraceID := true } =
        getQueryForLoki span { options with filterByTraceID := false } ∧
      getQueryForElasticsearchOrOpensearch span { options with filterByTraceID := true } =
        getQueryForElasticsearchOrOpensearch span { options with filterByTraceID := false } ∧
      getQueryForSplunk span { options with filterByTraceID := true } =
        getQueryForSplunk span { options with filterByTraceID := false }) ∧
    (span.spanID = "" →
      getQueryForLoki span { options with filterBySpanID := true } =
        getQueryForLoki span { options with filterBySpanID := false } ∧
      getQueryForElasticsearchOrOpensearch span { options with filterBySpanID := true } =
        getQueryForElasticsearchOrOpensearch span { options with filterBySpanID := false } ∧
      getQueryForSplunk span { options with filterBySpanID := true } =
        getQueryForSplunk span { options with filterBySpanID := false }) := by
  constructor <;> intro h <;>
    refine ⟨?_, ?_, ?_⟩ <;>
      simp [getQueryForLoki, getQueryForElasticsearchOrOpensearch, getQueryForSplunk, h]

/-- C9 witness: on a span with empty trace and span ids, setting either filter
flag leaves each builder's output unchanged. -/
theorem C9_witness :
    (getQueryForLoki sampleSpanNoIds { sampleLogOptions with filterByTraceID := true } =
        getQueryForLoki sampleSpanNoIds { sampleLogOptions with filterByTraceID := false } ∧
      getQueryForElasticsearchOrOpensearch sampleSpanNoIds
          { sampleLogOptions with filterByTraceID := true } =
        getQueryForElasticsearchOrOpensearch sampleSpanNoIds
          { sampleLogOptions with filterByTraceID := false } ∧
      getQueryForSplunk sampleSpanNoIds { sampleLogOptions with filterByTraceID := true } =
        getQueryForSplunk sampleSpanNoIds { sampleLogOptions with filterByTraceID := false }) ∧
    (getQueryForLoki sampleSpanNoIds { sampleLogOptions with filterBySpanID := true } =
        getQueryForLoki sampleSpanNoIds { sampleLogOptions with filterBySpanID := false } ∧
      getQueryForElasticsearchOrOpensearch sampleSpanNoIds
          { sampleLogOptions with filterBySpanID := true } =
        getQueryForElasticsearchOrOpensearch sampleSpanNoIds
          { sampleLogOptions with filterBySpanID := false } ∧
      getQueryForSplunk sampleSpanNoIds { sampleLogOptions with filterBySpanID := true } =
        getQueryForSplunk sampleSpanNoIds { sampleLogOptions with filterBySpanID := false }) :=
  ⟨(C9_id_filters_need_nonempty_id sampleSpanNoIds sampleLogOptions).1 rfl,
    (C9_id_filters_need_nonempty_id sampleSpanNoIds sampleLogOptions).2 rfl⟩

end GrafanaSpec
